import Mathlib

/-!
Verification of the HX711 weight-acquisition core of rpi-weight-gateway.

The definitions below are a shallow embedding of the Python sources
`src/services/weightd/app/hx711.py` (class HX711Reader) and
`src/services/weightd/app/main.py` (class AppContext, the reader-related
parts).  Python floats are modelled as exact rationals (ℚ), Python ints as
ℤ/ℕ, bounded deques as lists with an explicit capacity, raised exceptions
as Except values, and I/O (GPIO bit sampling, wall-clock time) as explicit
input parameters.  Each definition's doc comment names the source lines it
embeds.
-/

/-- Error raised by the continuous-path raw read, hx711.py line 131
(TimeoutError: data ready timeout). -/
inductive AcquisitionError where
  | timeout
deriving Repr, DecidableEq

/-- Errors raised by HX711Reader.calibrate, hx711.py lines 86, 96, 102.
The overall sampling timeout (line 86) and the empty-collection guard
(line 96) are kept distinct from the insufficient-delta guard (line 102). -/
inductive CalibrationError where
  | timeout
  | noReadings
  | insufficientDelta
deriving Repr, DecidableEq

/-- Bounded FIFO modelling a Python collections.deque with maxlen: an
append drops the oldest (leftmost) element once the capacity is reached
(hx711.py lines 36-37). -/
structure Fifo where
  maxlen : ℕ
  data : List ℚ
deriving Repr, DecidableEq

/-- deque.append for a deque with maxlen. -/
def Fifo.append (f : Fifo) (x : ℚ) : Fifo :=
  let d := f.data ++ [x]
  { f with data := d.drop (d.length - f.maxlen) }

/-- Arithmetic mean of a list, sum(l)/len(l); 0 for the empty list
(Python would divide by zero there - all callers guard emptiness). -/
def listMean (l : List ℚ) : ℚ := l.sum / l.length

/-- statistics.median as used at hx711.py line 110: sort, take the middle
element for odd length, the mean of the two middle elements for even
length; 0 for the empty list (Python raises there - the caller guards). -/
def pyMedian (l : List ℚ) : ℚ :=
  let s := l.insertionSort (fun a b => a ≤ b)
  let n := l.length
  if n = 0 then 0
  else if n % 2 = 1 then s.getD (n / 2) 0
  else (s.getD (n / 2 - 1) 0 + s.getD (n / 2) 0) / 2

/-- Population variance of a list: sum((x - mean)^2)/len, as computed at
main.py line 83; 0 for the empty list. -/
def listPVariance (l : List ℚ) : ℚ :=
  let m := listMean l
  (l.map (fun x => (x - m) ^ 2)).sum / l.length

/-- State of HX711Reader (hx711.py lines 18-44): pins, clamped rate and
window attributes, calibration constants, demo flag, and the two filter
deques.  The deques keep their construction-time capacity even when the
sample_rate / median_window attributes are later reassigned, exactly as in
the Python object. -/
structure HX711Reader where
  dout : ℤ
  sck : ℤ
  sample_rate : ℤ
  median_window : ℤ
  scale : ℚ
  offset : ℚ
  demo_mode : Bool
  raw_window : Fifo
  avg_window : Fifo
deriving Repr, DecidableEq

/-- HX711Reader.__init__ (hx711.py lines 18-44): clamps sample_rate to
[1,80] and median_window to at least 1, forces demo mode when running on
the mock GPIO (gpioIsMock models GPIO_IS_MOCK), and allocates the two
empty deques with capacities median_window and max(1, sample_rate). -/
def HX711Reader.init (gpio_dout gpio_sck : ℤ) (sample_rate median_window : ℤ)
    (scale offset : ℚ) (demo_mode gpioIsMock : Bool) : HX711Reader :=
  let sr := max 1 (min 80 sample_rate)
  let mw := max 1 median_window
  { dout := gpio_dout
    sck := gpio_sck
    sample_rate := sr
    median_window := mw
    scale := scale
    offset := offset
    demo_mode := demo_mode || gpioIsMock
    raw_window := { maxlen := mw.toNat, data := [] }
    avg_window := { maxlen := (max 1 sr).toNat, data := [] } }

/-- HX711Reader.read_grams (hx711.py lines 107-115).  The underlying
_read_raw() call happens first and may raise (modelled by the rawResult
parameter); only on success are the two deques mutated.  Returns the
result together with the post-call reader state. -/
def HX711Reader.read_grams (r : HX711Reader) (rawResult : Except AcquisitionError ℚ) :
    Except AcquisitionError ℚ × HX711Reader :=
  match rawResult with
  | .error e => (.error e, r)
  | .ok raw =>
    let rw := r.raw_window.append raw
    let med := if rw.data.length ≠ 0 then pyMedian rw.data else raw
    let grams := (med - r.offset) * r.scale
    let aw := r.avg_window.append grams
    (.ok (aw.data.sum / (aw.data.length : ℚ)),
     { r with raw_window := rw, avg_window := aw })

/-- HX711Reader._read_raw_average (hx711.py lines 117-119): the mean of
max(1, n) consecutive raw reads, the k-th read supplied by raws k. -/
def HX711Reader.read_raw_average (raws : ℕ → ℚ) (n : ℕ) : ℚ :=
  let vals := (List.range (max 1 n)).map raws
  vals.sum / vals.length

/-- HX711Reader.tare (hx711.py lines 53-55): offset becomes the average of
10 consecutive raw reads; nothing else changes. -/
def HX711Reader.tare (r : HX711Reader) (raws : ℕ → ℚ) : HX711Reader :=
  { r with offset := HX711Reader.read_raw_average raws 10 }

/-- HX711Reader.zero (hx711.py lines 57-59): same body as tare. -/
def HX711Reader.zero (r : HX711Reader) (raws : ℕ → ℚ) : HX711Reader :=
  { r with offset := HX711Reader.read_raw_average raws 10 }

/-- HX711Reader.calibrate (hx711.py lines 61-105).  The sample-collection
loop (lines 80-92) is time-driven; its outcome is modelled by the
raw_readings parameter, the list of raw samples it collected.  Returns
the result (new scale or error) paired with the post-call reader state;
on every error path the Python method raises before assigning
self.scale, so the state comes back unchanged. -/
def HX711Reader.calibrate (r : HX711Reader) (known_grams : ℚ) (raw_readings : List ℚ) :
    Except CalibrationError ℚ × HX711Reader :=
  if r.demo_mode then (.ok 1, { r with scale := 1 })
  else if raw_readings.length = 0 then (.error .noReadings, r)
  else
    let raw_avg := raw_readings.sum / (raw_readings.length : ℚ)
    if |raw_avg - r.offset| < 10 then (.error .insufficientDelta, r)
    else (.ok (known_grams / (raw_avg - r.offset)),
          { r with scale := known_grams / (raw_avg - r.offset) })

/-- One iteration of the 24-pulse acquisition loop, hx711.py line 139:
count = (count << 1) | GPIO.input(dout). -/
def shiftInStep (acc : ℕ) (b : Bool) : ℕ := (acc <<< 1) ||| b.toNat

/-- The 24-bit accumulator built by the read loop (hx711.py lines 134-141)
from the successively sampled data-line bits, MSB first. -/
def shiftIn (bits : List Bool) : ℕ := bits.foldl shiftInStep 0

/-- Two's-complement conversion of the 24-bit accumulator, hx711.py lines
146-149 (and identically lines 178-181): if bit 23 is set, OR with
~0xFFFFFF (Python's arbitrary-precision bitwise semantics, which Int.lor
on ℤ shares). -/
def toSigned24 (count : ℕ) : ℤ :=
  if count &&& 0x800000 ≠ 0 then Int.lor (count : ℤ) (~~~(0xFFFFFF : ℤ)) else (count : ℤ)

/-- HX711Reader._read_raw, hardware path (hx711.py lines 121-149).  ready
says whether the data line went low before the 100 ms deadline of the wait
loop (lines 127-132); when it did not, the method raises TimeoutError
before touching the clock.  bits are the 24 data-line samples of the
acquisition loop. -/
def HX711Reader.read_raw_hw (ready : Bool) (bits : List Bool) : Except AcquisitionError ℤ :=
  if ready = false then .error .timeout
  else .ok (toSigned24 (shiftIn bits))

/-- HX711Reader._MODE_PULSES (hx711.py line 153). -/
def HX711Reader.MODE_PULSES : List (String × ℤ) := [("A128", 1), ("B32", 2), ("A64", 3)]

/-- str.upper restricted to the ASCII mode names used here. -/
def strUpper (s : String) : String := { data := s.data.map Char.toUpper }

/-- HX711Reader._read_raw_with_next (hx711.py lines 155-181): reads the
24 accumulator bits and sends max(1, min(3, next_pulses)) trailing mode
pulses.  Its data-ready wait loop (lines 165-168) breaks out silently at
its deadline instead of raising, so the read proceeds regardless of the
ready flag, which is therefore unused.  Returns the sign-extended value
and the number of trailing pulses actually sent. -/
def HX711Reader.read_raw_with_next (ready : Bool) (bits : List Bool) (next_pulses : ℤ) :
    ℤ × ℤ :=
  (toSigned24 (shiftIn bits), max 1 (min 3 next_pulses))

/-- HX711Reader.read_raw_mode (hx711.py lines 183-194): uppercase the mode
name, look up its pulse count (default 1), do a priming read whose value
is discarded, then a measurement read whose value is returned.  hw n gives
the (ready, 24 sampled bits) of the n-th raw access from position pos on;
the returned ℕ is the position after the two consumed reads. -/
def HX711Reader.read_raw_mode (mode : String) (hw : ℕ → Bool × List Bool) (pos : ℕ) :
    ℤ × ℕ :=
  let pulses := (HX711Reader.MODE_PULSES.lookup (strUpper mode)).getD 1
  let prime := HX711Reader.read_raw_with_next (hw pos).1 (hw pos).2 pulses
  let val := HX711Reader.read_raw_with_next (hw (pos + 1)).1 (hw (pos + 1)).2 pulses
  (val.1, pos + 2)

/-- HX711Reader.read_raw_all_modes (hx711.py lines 196-202): the three
mode reads in order B32, A64, A128, returned as an association list
matching the Python dict literal. -/
def HX711Reader.read_raw_all_modes (hw : ℕ → Bool × List Bool) (pos : ℕ) :
    List (String × ℤ) × ℕ :=
  let b32 := HX711Reader.read_raw_mode "B32" hw pos
  let a64 := HX711Reader.read_raw_mode "A64" hw b32.2
  let a128 := HX711Reader.read_raw_mode "A128" hw a64.2
  ([("B32", b32.1), ("A64", a64.1), ("A128", a128.1)], a128.2)

/-- The reader-relevant fields of the service Config (models.py lines
32-40), the seven fields AppContext.update_config compares at main.py
lines 123-131. -/
structure Config where
  gpio_dout : ℤ
  gpio_sck : ℤ
  sample_rate : ℤ
  median_window : ℤ
  scale : ℚ
  offset : ℚ
  demo_mode : Bool
deriving Repr, DecidableEq

/-- The HX711 part of AppContext.update_config (main.py lines 122-146): if
any of the seven reader-relevant fields differs between the old and the
new config, the reader is closed and a fresh one is constructed from the
new config (close/HX711Reader(...) at lines 132-141); otherwise the four
attributes are reassigned on the existing reader (lines 142-146).  Returns
the resulting reader and whether it was recreated. -/
def AppContext.update_config_reader (old_cfg new_cfg : Config) (reader : HX711Reader)
    (gpioIsMock : Bool) : HX711Reader × Bool :=
  if old_cfg.gpio_dout ≠ new_cfg.gpio_dout
      ∨ old_cfg.gpio_sck ≠ new_cfg.gpio_sck
      ∨ old_cfg.sample_rate ≠ new_cfg.sample_rate
      ∨ old_cfg.median_window ≠ new_cfg.median_window
      ∨ old_cfg.scale ≠ new_cfg.scale
      ∨ old_cfg.offset ≠ new_cfg.offset
      ∨ old_cfg.demo_mode ≠ new_cfg.demo_mode then
    (HX711Reader.init new_cfg.gpio_dout new_cfg.gpio_sck new_cfg.sample_rate
      new_cfg.median_window new_cfg.scale new_cfg.offset new_cfg.demo_mode gpioIsMock,
     true)
  else
    ({ reader with
        scale := new_cfg.scale
        offset := new_cfg.offset
        sample_rate := new_cfg.sample_rate
        median_window := new_cfg.median_window },
     false)

/-- The stability bookkeeping of AppContext.read_grams (main.py lines
75-87), applied to the grams value g the reader returned: append g to the
history, trim the history to its last max(5, sample_rate) entries when it
grew beyond that, then recompute the flag.  The Python comparison
var ** 0.5 < t is embedded as the equivalent var < t ^ 2 (t is at least
0.5, hence positive; the claim theorem proves the square-root form over
ℝ).  Returns the new history and the new flag. -/
def AppContext.stability_update (sample_rate : ℤ) (scale : ℚ) (last_vals : List ℚ)
    (g : ℚ) : List ℚ × Bool :=
  let cap := max 5 sample_rate
  let grown := last_vals ++ [g]
  let vals := if (grown.length : ℤ) > cap then grown.drop (grown.length - cap.toNat)
              else grown
  if 5 ≤ vals.length then
    (vals, decide (listPVariance vals < (max (1/2 : ℚ) (5 / max 1 scale)) ^ 2))
  else (vals, false)

/-! ### Helper lemmas on the bit-level accumulator and sign extension -/

/-- One loop iteration adds the sampled bit below a doubled accumulator. -/
lemma shiftInStep_eq (acc : ℕ) (b : Bool) : shiftInStep acc b = 2 * acc + b.toNat := by
  unfold shiftInStep
  have h1 : acc <<< 1 = 2 * acc := by rw [Nat.shiftLeft_eq, pow_one, Nat.mul_comm]
  rw [h1]
  cases b
  · simp
  · show 2 * acc ||| 1 = 2 * acc + 1
    apply Nat.eq_of_testBit_eq
    intro i
    rw [Nat.testBit_lor]
    cases i with
    | zero =>
      simp only [Nat.testBit_to_div_mod]
      norm_num
      omega
    | succ j =>
      have h2 : Nat.testBit 1 (j + 1) = false :=
        Nat.testBit_lt_two_pow
          (by calc 1 < 2 ^ 1 := by norm_num
                _ ≤ 2 ^ (j + 1) := Nat.pow_le_pow_right (by norm_num) (by omega))
      rw [h2, Bool.or_false]
      simp only [Nat.testBit_to_div_mod]
      have h3 : (2 * acc + 1) / 2 ^ (j + 1) = 2 * acc / 2 ^ (j + 1) := by
        rw [Nat.pow_succ, Nat.mul_comm (2 ^ j) 2, ← Nat.div_div_eq_div_mul,
          ← Nat.div_div_eq_div_mul]
        congr 1
        omega
      rw [h3]

lemma shiftIn_lt_aux (bits : List Bool) (acc k : ℕ) (h : acc < 2 ^ k) :
    bits.foldl shiftInStep acc < 2 ^ (k + bits.length) := by
  induction bits generalizing acc k with
  | nil => simpa using h
  | cons b bs ih =>
    simp only [List.foldl_cons, List.length_cons]
    have h1 : shiftInStep acc b < 2 ^ (k + 1) := by
      rw [shiftInStep_eq, pow_succ]
      cases b <;> simp <;> omega
    have h2 := ih (shiftInStep acc b) (k + 1) h1
    have h3 : k + 1 + bs.length = k + (bs.length + 1) := by omega
    rwa [h3] at h2

/-- The 24-iteration read loop leaves the accumulator below 2^24. -/
lemma shiftIn_lt (bits : List Bool) (h : bits.length = 24) : shiftIn bits < 2 ^ 24 := by
  have h1 := shiftIn_lt_aux bits 0 0 (by norm_num)
  simpa [shiftIn, h] using h1

lemma ldiff_mask (c : ℕ) (h : c < 2 ^ 24) : Nat.ldiff (2 ^ 24 - 1) c = 2 ^ 24 - 1 - c := by
  apply Nat.eq_of_testBit_eq
  intro i
  rw [Nat.testBit_ldiff, Nat.testBit_two_pow_sub_one]
  have h1 : 2 ^ 24 - 1 - c = 2 ^ 24 - (c + 1) := by omega
  rw [h1, Nat.testBit_two_pow_sub_succ h]

/-- Python's count | ~0xFFFFFF on a 24-bit accumulator is subtraction of
2^24 (two's complement). -/
lemma lor_mask (c : ℕ) (h : c < 2 ^ 24) :
    Int.lor (c : ℤ) (~~~(0xFFFFFF : ℤ)) = (c : ℤ) - 2 ^ 24 := by
  have hm : (~~~(0xFFFFFF : ℤ)) = Int.negSucc 16777215 := by decide
  rw [hm]
  have h215 : (16777215 : ℕ) = 2 ^ 24 - 1 := by norm_num
  have hld : Int.lor (Int.ofNat c) (Int.negSucc 16777215) =
      Int.negSucc (Nat.ldiff 16777215 c) := rfl
  show Int.lor (Int.ofNat c) (Int.negSucc 16777215) = (c : ℤ) - 2 ^ 24
  rw [hld, h215, ldiff_mask c h, Int.negSucc_eq]
  have hle : c ≤ 2 ^ 24 - 1 := by omega
  push_cast [hle]
  omega

lemma and_bit23 (c : ℕ) : (c &&& 0x800000 ≠ 0) ↔ c.testBit 23 = true := by
  have h : (0x800000 : ℕ) = 2 ^ 23 := by norm_num
  rw [h, Nat.and_two_pow]
  cases hb : c.testBit 23 <;> simp

/-- Values below 2^24 with bit 23 clear are below 2^23. -/
lemma lt_pow23_of_testBit_false (c : ℕ) (h : c < 2 ^ 24) (hb : c.testBit 23 = false) :
    c < 2 ^ 23 := by
  have hb2 := hb
  rw [Nat.testBit_to_div_mod] at hb2
  simp only [decide_eq_false_iff_not] at hb2
  norm_num at hb2 h ⊢
  omega

/-- Full characterisation of the sign-extension step on a 24-bit value. -/
lemma toSigned24_eq (c : ℕ) (h : c < 2 ^ 24) :
    toSigned24 c = (if c.testBit 23 then (c : ℤ) - 2 ^ 24 else (c : ℤ)) := by
  unfold toSigned24
  by_cases hb : c.testBit 23 = true
  · rw [if_pos ((and_bit23 c).mpr hb), lor_mask c h, if_pos hb]
  · have hb1 : c.testBit 23 = false := by simpa using hb
    rw [if_neg (by simp [and_bit23, hb1]), if_neg (by simp [hb1])]

/-- The sign-extended value of a 24-bit accumulator lies in the signed
24-bit range. -/
lemma toSigned24_range (c : ℕ) (h : c < 2 ^ 24) :
    -(2 ^ 23) ≤ toSigned24 c ∧ toSigned24 c < 2 ^ 23 := by
  rw [toSigned24_eq c h]
  by_cases hb : c.testBit 23 = true
  · have hge : 2 ^ 23 ≤ c := Nat.testBit_implies_ge hb
    rw [if_pos hb]
    constructor <;> push_cast <;> omega
  · have hb1 : c.testBit 23 = false := by simpa using hb
    have hlt := lt_pow23_of_testBit_false c h hb1
    rw [if_neg (by simp [hb1])]
    constructor <;> push_cast <;> omega

/-! ### Helper lemmas on the filter FIFOs -/

lemma Fifo.append_data_length (f : Fifo) (x : ℚ) :
    (f.append x).data.length = min f.maxlen (f.data.length + 1) := by
  simp only [Fifo.append, List.length_drop, List.length_append, List.length_cons,
    List.length_nil]
  omega

lemma Fifo.append_data_ne_nil (f : Fifo) (x : ℚ) (h : 1 ≤ f.maxlen) :
    (f.append x).data ≠ [] := by
  have h1 := Fifo.append_data_length f x
  intro h2
  rw [h2] at h1
  simp at h1
  omega

/-! ### Claim theorems -/

/-- C6: for every 24-bit accumulator value c produced by the hardware read
loop (which always stays below 2^24), the sign-extension step returns
c OR ~0xFFFFFF = c - 2^24 when bit 23 is set and c itself otherwise, so
every returned raw sample lies in [-8388608, 8388607]. -/
theorem sign_extension_spec :
    (∀ bits : List Bool, bits.length = 24 → shiftIn bits < 2 ^ 24) ∧
    (∀ c : ℕ, c < 2 ^ 24 →
      toSigned24 c = (if c.testBit 23 then (c : ℤ) - 2 ^ 24 else (c : ℤ)) ∧
      -(2 ^ 23) ≤ toSigned24 c ∧ toSigned24 c < 2 ^ 23) ∧
    (∀ (bits : List Bool) (v : ℤ), bits.length = 24 →
      HX711Reader.read_raw_hw true bits = .ok v → -(2 ^ 23) ≤ v ∧ v < 2 ^ 23) := by
  refine ⟨shiftIn_lt, fun c hc => ⟨toSigned24_eq c hc, toSigned24_range c hc⟩, ?_⟩
  intro bits v h24 hv
  have h1 : v = toSigned24 (shiftIn bits) := by
    simpa [HX711Reader.read_raw_hw] using hv.symm
  rw [h1]
  exact toSigned24_range _ (shiftIn_lt bits h24)

/-- C7: when the underlying raw read fails with the acquisition timeout,
read_grams propagates the error and leaves both filter FIFOs (indeed the
whole reader state) unchanged. -/
theorem read_grams_timeout_preserves_state (r : HX711Reader) (e : AcquisitionError) :
    HX711Reader.read_grams r (.error e) = (.error e, r) ∧
    (HX711Reader.read_grams r (.error e)).2.raw_window = r.raw_window ∧
    (HX711Reader.read_grams r (.error e)).2.avg_window = r.avg_window :=
  ⟨rfl, rfl, rfl⟩

/-- C8: zero() and tare() are extensionally equal: on every reader state
and every raw-sample source both set offset to the mean of 10 consecutive
raw reads and change nothing else. -/
theorem zero_eq_tare (r : HX711Reader) (raws : ℕ → ℚ) :
    HX711Reader.zero r raws = HX711Reader.tare r raws ∧
    HX711Reader.tare r raws = { r with offset := HX711Reader.read_raw_average raws 10 } :=
  ⟨rfl, rfl⟩

/-- C1 counterexample: a config change that differs only in scale (the
pins and the demo flag are equal) still recreates the reader, so the
claimed "recreate iff pins or synthetic-mode flag differ, hot-patch scale
in place" is false on the code. -/
theorem update_config_reader_hot_patch_counterexample :
    (AppContext.update_config_reader
      { gpio_dout := 5, gpio_sck := 6, sample_rate := 10, median_window := 5,
        scale := 1, offset := 0, demo_mode := false }
      { gpio_dout := 5, gpio_sck := 6, sample_rate := 10, median_window := 5,
        scale := 2, offset := 0, demo_mode := false }
      { dout := 5, sck := 6, sample_rate := 10, median_window := 5, scale := 1,
        offset := 0, demo_mode := false,
        raw_window := { maxlen := 5, data := [100] },
        avg_window := { maxlen := 10, data := [100] } }
      false).2 = true := by
  decide

/-- C1 (amended): update_config tears the reader down and recreates it if
and only if ANY of the seven reader-relevant fields (pins, sample_rate,
median_window, scale, offset, demo flag) differs; only when all seven are
equal does it hot-patch the four attributes in place, which preserves both
filter FIFOs. -/
theorem update_config_reader_recreate_iff (old_cfg new_cfg : Config) (r : HX711Reader)
    (m : Bool) :
    ((AppContext.update_config_reader old_cfg new_cfg r m).2 = true ↔
      (old_cfg.gpio_dout ≠ new_cfg.gpio_dout ∨ old_cfg.gpio_sck ≠ new_cfg.gpio_sck
        ∨ old_cfg.sample_rate ≠ new_cfg.sample_rate
        ∨ old_cfg.median_window ≠ new_cfg.median_window
        ∨ old_cfg.scale ≠ new_cfg.scale ∨ old_cfg.offset ≠ new_cfg.offset
        ∨ old_cfg.demo_mode ≠ new_cfg.demo_mode)) ∧
    ((AppContext.update_config_reader old_cfg new_cfg r m).2 = true →
      (AppContext.update_config_reader old_cfg new_cfg r m).1 =
        HX711Reader.init new_cfg.gpio_dout new_cfg.gpio_sck new_cfg.sample_rate
          new_cfg.median_window new_cfg.scale new_cfg.offset new_cfg.demo_mode m) ∧
    ((AppContext.update_config_reader old_cfg new_cfg r m).2 = false →
      (AppContext.update_config_reader old_cfg new_cfg r m).1 =
        { r with scale := new_cfg.scale, offset := new_cfg.offset,
                 sample_rate := new_cfg.sample_rate,
                 median_window := new_cfg.median_window } ∧
      (AppContext.update_config_reader old_cfg new_cfg r m).1.raw_window = r.raw_window ∧
      (AppContext.update_config_reader old_cfg new_cfg r m).1.avg_window = r.avg_window) := by
  unfold AppContext.update_config_reader
  by_cases h : old_cfg.gpio_dout ≠ new_cfg.gpio_dout ∨ old_cfg.gpio_sck ≠ new_cfg.gpio_sck
      ∨ old_cfg.sample_rate ≠ new_cfg.sample_rate
      ∨ old_cfg.median_window ≠ new_cfg.median_window
      ∨ old_cfg.scale ≠ new_cfg.scale ∨ old_cfg.offset ≠ new_cfg.offset
      ∨ old_cfg.demo_mode ≠ new_cfg.demo_mode
  · rw [if_pos h]
    simp [h]
  · rw [if_neg h]
    simp [h]

/-- C2: on a successful raw read, read_grams appends the raw sample to the
median FIFO, takes the median of that FIFO's current contents, converts it
with grams = (median - offset) * scale, appends grams to the moving-average
FIFO, and returns the mean of that FIFO's current contents (capacity at
least 1, as guaranteed by construction). -/
theorem read_grams_pipeline_spec (r : HX711Reader) (raw : ℚ)
    (h : 1 ≤ r.raw_window.maxlen) :
    HX711Reader.read_grams r (.ok raw) =
      (.ok (listMean ((r.avg_window.append
          ((pyMedian (r.raw_window.append raw).data - r.offset) * r.scale)).data)),
       { r with
          raw_window := r.raw_window.append raw,
          avg_window := r.avg_window.append
            ((pyMedian (r.raw_window.append raw).data - r.offset) * r.scale) }) := by
  have hne : (r.raw_window.append raw).data ≠ [] := Fifo.append_data_ne_nil r.raw_window raw h
  have hlen : (r.raw_window.append raw).data.length ≠ 0 := by
    simpa [List.length_eq_zero] using hne
  simp only [HX711Reader.read_grams, if_pos hlen, listMean]

/-- C2 witness: the pipeline equation instantiated at a concrete reader
and raw sample. -/
theorem read_grams_pipeline_spec_witness :
    HX711Reader.read_grams
      { dout := 5, sck := 6, sample_rate := 10, median_window := 5, scale := 2,
        offset := 1, demo_mode := false,
        raw_window := { maxlen := 5, data := [3, 7] },
        avg_window := { maxlen := 10, data := [4] } }
      (.ok 9) =
      (.ok (listMean (({ maxlen := 10, data := [4] } : Fifo).append
          ((pyMedian (({ maxlen := 5, data := [3, 7] } : Fifo).append 9).data - 1) * 2)).data),
       { dout := 5, sck := 6, sample_rate := 10, median_window := 5, scale := 2,
         offset := 1, demo_mode := false,
         raw_window := ({ maxlen := 5, data := [3, 7] } : Fifo).append 9,
         avg_window := ({ maxlen := 10, data := [4] } : Fifo).append
           ((pyMedian (({ maxlen := 5, data := [3, 7] } : Fifo).append 9).data - 1) * 2) }) :=
  read_grams_pipeline_spec
    { dout := 5, sck := 6, sample_rate := 10, median_window := 5, scale := 2,
      offset := 1, demo_mode := false,
      raw_window := { maxlen := 5, data := [3, 7] },
      avg_window := { maxlen := 10, data := [4] } }
    9 (by decide)

/-- C3: a hardware-mode calibrate whose collected raw average is within 10
raw units of offset fails with the insufficient-delta error and leaves the
whole reader state (in particular scale and offset) unchanged; with a
delta of at least 10 that error is not raised. -/
theorem calibrate_insufficient_delta_atomic (r : HX711Reader) (known_grams : ℚ)
    (raw_readings : List ℚ) (hdemo : r.demo_mode = false) (hne : raw_readings ≠ []) :
    (|raw_readings.sum / (raw_readings.length : ℚ) - r.offset| < 10 →
      HX711Reader.calibrate r known_grams raw_readings =
        (.error .insufficientDelta, r)) ∧
    (10 ≤ |raw_readings.sum / (raw_readings.length : ℚ) - r.offset| →
      (HX711Reader.calibrate r known_grams raw_readings).1 ≠
        .error .insufficientDelta) := by
  have hlen : ¬(raw_readings.length = 0) := by
    simpa [List.length_eq_zero] using hne
  unfold HX711Reader.calibrate
  rw [hdemo]
  simp only [Bool.false_eq_true, if_false, if_neg hlen]
  constructor
  · intro hd
    rw [if_pos hd]
  · intro hd
    rw [if_neg (by exact not_lt.mpr hd)]
    simp

/-- C3 witness: the dichotomy instantiated at a concrete hardware-mode
reader and a concrete reading list. -/
theorem calibrate_insufficient_delta_atomic_witness :
    (|([0, 0] : List ℚ).sum / (([0, 0] : List ℚ).length : ℚ) - 0| < 10 →
      HX711Reader.calibrate
        { dout := 5, sck := 6, sample_rate := 10, median_window := 5, scale := 3,
          offset := 0, demo_mode := false,
          raw_window := { maxlen := 5, data := [] },
          avg_window := { maxlen := 10, data := [] } } 500 [0, 0] =
        (.error .insufficientDelta,
         { dout := 5, sck := 6, sample_rate := 10, median_window := 5, scale := 3,
           offset := 0, demo_mode := false,
           raw_window := { maxlen := 5, data := [] },
           avg_window := { maxlen := 10, data := [] } })) ∧
    (10 ≤ |([0, 0] : List ℚ).sum / (([0, 0] : List ℚ).length : ℚ) - 0| →
      (HX711Reader.calibrate
        { dout := 5, sck := 6, sample_rate := 10, median_window := 5, scale := 3,
          offset := 0, demo_mode := false,
          raw_window := { maxlen := 5, data := [] },
          avg_window := { maxlen := 10, data := [] } } 500 [0, 0]).1 ≠
        .error .insufficientDelta) :=
  calibrate_insufficient_delta_atomic
    { dout := 5, sck := 6, sample_rate := 10, median_window := 5, scale := 3,
      offset := 0, demo_mode := false,
      raw_window := { maxlen := 5, data := [] },
      avg_window := { maxlen := 10, data := [] } }
    500 [0, 0] rfl (by decide)

/-- C4: a successful hardware-mode calibrate stores and returns
known_grams / (raw_avg - offset); in synthetic (demo) mode calibrate sets
scale to 1.0 unconditionally and returns it, regardless of known_grams and
of the readings. -/
theorem calibrate_scale_formula (r : HX711Reader) (known_grams : ℚ)
    (raw_readings : List ℚ) :
    (r.demo_mode = true →
      HX711Reader.calibrate r known_grams raw_readings = (.ok 1, { r with scale := 1 })) ∧
    (r.demo_mode = false → raw_readings ≠ [] →
      10 ≤ |raw_readings.sum / (raw_readings.length : ℚ) - r.offset| →
      HX711Reader.calibrate r known_grams raw_readings =
        (.ok (known_grams / (raw_readings.sum / (raw_readings.length : ℚ) - r.offset)),
         { r with
            scale := known_grams /
              (raw_readings.sum / (raw_readings.length : ℚ) - r.offset) })) := by
  constructor
  · intro hdemo
    unfold HX711Reader.calibrate
    rw [hdemo]
    simp
  · intro hdemo hne hd
    have hlen : ¬(raw_readings.length = 0) := by
      simpa [List.length_eq_zero] using hne
    unfold HX711Reader.calibrate
    rw [hdemo]
    simp only [Bool.false_eq_true, if_false, if_neg hlen, if_neg (not_lt.mpr hd)]

/-- C4 witness: with a constant raw signal of offset + 1000, offset 0 and
known mass 500 g, the stored scale is 0.5; a demo-mode calibrate stores
scale 1 regardless of the known mass. -/
theorem calibrate_scale_formula_witness :
    (HX711Reader.calibrate
      { dout := 5, sck := 6, sample_rate := 10, median_window := 5, scale := 3,
        offset := 0, demo_mode := false,
        raw_window := { maxlen := 5, data := [] },
        avg_window := { maxlen := 10, data := [] } }
      500 (List.replicate 20 1000)).2.scale = 1 / 2 ∧
    (HX711Reader.calibrate
      { dout := 5, sck := 6, sample_rate := 10, median_window := 5, scale := 3,
        offset := 0, demo_mode := true,
        raw_window := { maxlen := 5, data := [] },
        avg_window := { maxlen := 10, data := [] } }
      12345 []).2.scale = 1 := by
  constructor
  · have h := (calibrate_scale_formula
      { dout := 5, sck := 6, sample_rate := 10, median_window := 5, scale := 3,
        offset := 0, demo_mode := false,
        raw_window := { maxlen := 5, data := [] },
        avg_window := { maxlen := 10, data := [] } }
      500 (List.replicate 20 1000)).2 rfl (by simp)
      (by norm_num [List.sum_replicate, nsmul_eq_mul])
    rw [h]
    norm_num [List.sum_replicate, nsmul_eq_mul]
  · have h := (calibrate_scale_formula
      { dout := 5, sck := 6, sample_rate := 10, median_window := 5, scale := 3,
        offset := 0, demo_mode := true,
        raw_window := { maxlen := 5, data := [] },
        avg_window := { maxlen := 10, data := [] } }
      12345 []).1 rfl
    rw [h]

/-- The embedded Boolean var < t^2 agrees with the source's comparison
var ** 0.5 < t, read over the reals, whenever t is at least 0.5. -/
lemma decide_var_sqrt_iff (v t : ℚ) (ht : 1/2 ≤ t) :
    (decide (v < t ^ 2) = true) ↔ Real.sqrt (v : ℝ) < (t : ℝ) := by
  simp only [decide_eq_true_eq]
  have ht0 : (0 : ℝ) < (t : ℝ) := by
    have h1 : (0 : ℚ) < t := lt_of_lt_of_le (by norm_num) ht
    exact_mod_cast h1
  rw [Real.sqrt_lt' ht0]
  constructor
  · intro h; exact_mod_cast h
  · intro h; exact_mod_cast h

/-- C5: after a read the grams value is appended to a history bounded at
max(5, sample_rate) entries; with fewer than 5 entries the stability flag
is false, and with at least 5 entries the flag holds exactly when the
population standard deviation of the history is below
max(0.5, 5.0 / max(1, scale)). -/
theorem stability_classifier_spec (sample_rate : ℤ) (scale : ℚ) (last_vals : List ℚ)
    (g : ℚ) :
    (((AppContext.stability_update sample_rate scale last_vals g).1.length : ℤ) ≤
        max 5 sample_rate) ∧
    ((AppContext.stability_update sample_rate scale last_vals g).1.length < 5 →
      (AppContext.stability_update sample_rate scale last_vals g).2 = false) ∧
    (5 ≤ (AppContext.stability_update sample_rate scale last_vals g).1.length →
      ((AppContext.stability_update sample_rate scale last_vals g).2 = true ↔
        Real.sqrt ((listPVariance
            (AppContext.stability_update sample_rate scale last_vals g).1 : ℚ) : ℝ) <
          ((max (1/2 : ℚ) (5 / max 1 scale) : ℚ) : ℝ))) := by
  simp only [AppContext.stability_update]
  have hcap5 : (5 : ℤ) ≤ max 5 sample_rate := le_max_left _ _
  have hcapnat : ((max 5 sample_rate).toNat : ℤ) = max 5 sample_rate := by omega
  by_cases hb : ((last_vals ++ [g]).length : ℤ) > max 5 sample_rate
  · have hdrop : ((last_vals ++ [g]).drop
        ((last_vals ++ [g]).length - (max 5 sample_rate).toNat)).length =
        (max 5 sample_rate).toNat := by
      rw [List.length_drop]
      omega
    rw [if_pos hb]
    have h5 : 5 ≤ ((last_vals ++ [g]).drop
        ((last_vals ++ [g]).length - (max 5 sample_rate).toNat)).length := by omega
    rw [if_pos h5]
    dsimp only
    refine ⟨by rw [hdrop]; omega, by intro h; omega, ?_⟩
    intro h5b
    exact decide_var_sqrt_iff _ _ (le_max_left _ _)
  · rw [if_neg hb]
    by_cases h5 : 5 ≤ (last_vals ++ [g]).length
    · rw [if_pos h5]
      dsimp only
      refine ⟨by omega, by intro h; omega, ?_⟩
      intro h5b
      exact decide_var_sqrt_iff _ _ (le_max_left _ _)
    · rw [if_neg h5]
      dsimp only
      exact ⟨by omega, fun _ => rfl, fun h => absurd h h5⟩

/-- C9: the mode map sends A128 to 1, B32 to 2 and A64 to 3 trailing
pulses; read_raw_mode consumes exactly one priming read and one
measurement read, returning the second value; and read_raw_all_modes
returns exactly the three keys B32, A64, A128, each value a signed 24-bit
integer (when the hardware supplies 24 bits per read). -/
theorem mode_selector_spec :
    (HX711Reader.MODE_PULSES.lookup "A128" = some 1 ∧
     HX711Reader.MODE_PULSES.lookup "B32" = some 2 ∧
     HX711Reader.MODE_PULSES.lookup "A64" = some 3) ∧
    (∀ (mode : String) (hw : ℕ → Bool × List Bool) (pos : ℕ),
      HX711Reader.read_raw_mode mode hw pos =
        (toSigned24 (shiftIn (hw (pos + 1)).2), pos + 2)) ∧
    (∀ (hw : ℕ → Bool × List Bool) (pos : ℕ),
      (∀ n, ((hw n).2).length = 24) →
      (HX711Reader.read_raw_all_modes hw pos).1.map Prod.fst = ["B32", "A64", "A128"] ∧
      ∀ p ∈ (HX711Reader.read_raw_all_modes hw pos).1,
        -(2 ^ 23) ≤ p.2 ∧ p.2 < 2 ^ 23) := by
  refine ⟨by decide, fun mode hw pos => rfl, ?_⟩
  intro hw pos h24
  refine ⟨rfl, ?_⟩
  intro p hp
  have hall : (HX711Reader.read_raw_all_modes hw pos).1 =
      [("B32", toSigned24 (shiftIn (hw (pos + 1)).2)),
       ("A64", toSigned24 (shiftIn (hw (pos + 3)).2)),
       ("A128", toSigned24 (shiftIn (hw (pos + 5)).2))] := rfl
  rw [hall] at hp
  simp only [List.mem_cons, List.not_mem_nil, or_false] at hp
  rcases hp with rfl | rfl | rfl <;>
    exact toSigned24_range _ (shiftIn_lt _ (h24 _))

/-- C10: the diagnostic raw read ignores the data-ready deadline (its wait
loop breaks out silently and the 24 bits are clocked out anyway), so the
mode sweep returns the same values even when every read would have timed
out, while the continuous-path raw read raises on that same condition;
and a mode name outside A128/B32/A64 is silently treated as A128 (1
trailing pulse). -/
theorem diagnostic_read_never_times_out :
    (∀ (bits : List Bool) (pulses : ℤ) (r1 r2 : Bool),
      HX711Reader.read_raw_with_next r1 bits pulses =
        HX711Reader.read_raw_with_next r2 bits pulses) ∧
    (∀ bits : List Bool, HX711Reader.read_raw_hw false bits = .error .timeout) ∧
    (∀ (hw : ℕ → Bool × List Bool) (pos : ℕ),
      HX711Reader.read_raw_all_modes hw pos =
        HX711Reader.read_raw_all_modes (fun n => (false, (hw n).2)) pos) ∧
    (∀ (mode : String) (hw : ℕ → Bool × List Bool) (pos : ℕ),
      strUpper mode ∉ ["A128", "B32", "A64"] →
      HX711Reader.read_raw_mode mode hw pos = HX711Reader.read_raw_mode "A128" hw pos) := by
  refine ⟨fun bits pulses r1 r2 => rfl, fun bits => rfl, fun hw pos => rfl, ?_⟩
  intro mode hw pos h
  simp only [List.mem_cons, List.not_mem_nil, or_false, not_or] at h
  obtain ⟨h1, h2, h3⟩ := h
  have hnone : HX711Reader.MODE_PULSES.lookup (strUpper mode) = none := by
    have b1 : (strUpper mode == "A128") = false := beq_eq_false_iff_ne.mpr h1
    have b2 : (strUpper mode == "B32") = false := beq_eq_false_iff_ne.mpr h2
    have b3 : (strUpper mode == "A64") = false := beq_eq_false_iff_ne.mpr h3
    simp [HX711Reader.MODE_PULSES, List.lookup, b1, b2, b3]
  simp only [HX711Reader.read_raw_mode, hnone]
  rfl
